import Mathlib

/-!
jira-sync: the per-issue synchronisation pipeline of `cmd/root.go`

A shallow embedding of `cmd/root.go`: the description template and its
rendering, the Jira creation request built by `syncToJira`, the fetch loop
`getGitlabIssues`, the flag set-up of `init` and the body of `rootCmd.Run`.

The two tracker clients are external collaborators.  Their operations are
fields of `Env`, functions of an explicit world state, and every call that
the program makes is recorded, with its result, in a trace of `Event`s.
-/

namespace JiraSync

/-! ## Data model -/

/-- The fields of `gitlab.Issue` that the program reads. -/
structure GitlabIssue where
  IID : Int
  Title : String
  Description : String
  WebURL : String
  deriving DecidableEq, Repr

/-- The value `jira.IssueFields` as the program fills it in: `Unknowns` is the
`tcontainer.MarshalMap` of custom fields, listed in key order. -/
structure IssueFields where
  TypeName : String
  ProjectKey : String
  Summary : String
  Description : String
  Unknowns : List (String × String)
  deriving DecidableEq, Repr

/-- The part of a `jira.Issue` returned by the tracker that the program reads. -/
structure JiraIssue where
  Key : String
  deriving DecidableEq, Repr

/-! ## The description template -/

/-- The constant `JiraIssueDescriptionTemplate` (root.go, lines 24-47).  The raw
string starts with a line break; the line after the description action holds a
no-break space (U+00A0) and nothing else. -/
def JiraIssueDescriptionTemplate : String :=
  "\n" ++
  "*_For newcomers: Before you log ANY time on this ticket, change the EPIC to your Onboarding epic!_*\n" ++
  "\n" ++
  "h3. Story\n" ++
  "\n" ++
  "\"As <>, I want to <>, so I <>.\"\n" ++
  "\n" ++
  "h3. Full description\n" ++
  "\n" ++
  "Original [description from GitLab|\x7b\x7b .GitlabURL \x7d\x7d]:\n" ++
  "\n" ++
  "\x7b\x7b .Description \x7d\x7d\n" ++
  "\u00a0\n" ++
  "h3. Completion criteria\n" ++
  " * Open a pull request to address any issues if applicable\n" ++
  " * Close the related GitLab [issue|\x7b\x7b .GitlabURL \x7d\x7d]\n" ++
  "\n" ++
  "h3. Documentation updates & improvements criteria\n" ++
  " * Up to the assignee\n" ++
  "\n" ++
  "h3. Review timeline\n" ++
  " * PR to be sent for review by first Friday\n" ++
  " * First PR review to be completed by second Monday\n"

/-- A parsed template: literal text and field actions, as `text/template`
produces for a template made of text and `.Field` actions. -/
inductive Node where
  | text (s : List Char)
  | field (name : List Char)
  deriving DecidableEq, Repr

/-- The characters that the lexer skips as space inside an action. -/
def isSpace (c : Char) : Bool :=
  c = ' ' || c = '\t' || c = '\r' || c = '\n'

/-- Drop the space at the start of an action. -/
def trimLeft : List Char → List Char
  | [] => []
  | c :: cs => if isSpace c then trimLeft cs else c :: cs

/-- Drop the space at both ends of an action. -/
def trim (cs : List Char) : List Char :=
  (trimLeft (trimLeft cs).reverse).reverse

/-- The characters allowed in a field name. -/
def isNameChar (c : Char) : Bool :=
  c.isAlphanum || c = '_'

/-- The node of an action: a dot followed by a field name; every other action
is outside the fragment of `text/template` that the program uses. -/
def actionNode (body : List Char) : Option Node :=
  match trim body with
  | '.' :: name => if name ≠ [] ∧ name.all isNameChar then some (.field name) else none
  | _ => none

/-- The lexer of `template.Parse` on the fragment used here.  `inAction` tells
whether the scan is between the delimiters; `acc` is the text of the current
item, reversed.  An action that is not closed, or is not a field, is a parse
error (`none`). -/
def parseAux : List Char → Bool → List Char → Option (List Node)
  | [], false, acc => some [.text acc.reverse]
  | [], true, _ => none
  | [c], false, acc => some [.text (c :: acc).reverse]
  | [_], true, _ => none
  | c₁ :: c₂ :: rest, false, acc =>
      if c₁ = '{' ∧ c₂ = '{' then
        (parseAux rest true []).map (fun ns => .text acc.reverse :: ns)
      else parseAux (c₂ :: rest) false (c₁ :: acc)
  | c₁ :: c₂ :: rest, true, acc =>
      if c₁ = '}' ∧ c₂ = '}' then
        match actionNode acc.reverse with
        | none => none
        | some n => (parseAux rest false []).map (fun ns => n :: ns)
      else parseAux (c₂ :: rest) true (c₁ :: acc)

/-- The function `template.Parse`, on the fragment used here. -/
def parse (src : String) : Option (List Node) :=
  parseAux src.data false []

/-- The value of a key in a `map[string]string`: the zero value when absent. -/
def lookupField (data : List (String × String)) (name : List Char) : String :=
  match data.find? (fun kv => kv.1.data = name) with
  | some kv => kv.2
  | none => ""

/-- The method `Template.Execute` with a `map[string]string` as data: text is
copied, a field action prints the value of the key, unescaped. -/
def execute (nodes : List Node) (data : List (String × String)) : String :=
  nodes.foldl
    (fun out n =>
      match n with
      | .text s => out ++ String.mk s
      | .field name => out ++ lookupField data name)
    ""

/-! ## Decimal text of integers -/

/-- The character of a decimal digit. -/
def digitChar (d : Nat) : Char :=
  Char.ofNat (48 + d)

/-- The digit loop of `strconv.FormatInt` in base ten: the digits of `n` are put in
front of `acc`, the last one first.  The first argument bounds the number of
digits; `natToDecimal` passes a bound that is never reached. -/
def decimalAux : Nat → Nat → List Char → List Char
  | 0, _, acc => acc
  | fuel + 1, n, acc =>
      if n < 10 then digitChar n :: acc
      else decimalAux fuel (n / 10) (digitChar (n % 10) :: acc)

/-- The decimal digits of a natural number. -/
def natToDecimal (n : Nat) : List Char :=
  decimalAux (n + 1) n []

/-- The function `strconv.Itoa`: the decimal text of an integer, with a minus sign
when negative.  The same text is what `fmt.Printf` prints for the verb `%d`. -/
def Itoa (i : Int) : String :=
  if i < 0 then String.mk ('-' :: natToDecimal (-i).toNat)
  else String.mk (natToDecimal i.toNat)

/-- The value of a decimal digit character. -/
def digitValue (c : Char) : Option Nat :=
  if 48 ≤ c.toNat ∧ c.toNat ≤ 57 then some (c.toNat - 48) else none

/-- Read a run of decimal digits, most significant first, continuing from `acc`. -/
def parseDigits : List Char → Nat → Option Nat
  | [], acc => some acc
  | c :: cs, acc =>
      match digitValue c with
      | none => none
      | some d => parseDigits cs (acc * 10 + d)

/-- Reading a text back as a decimal integer, as `strconv.Atoi` does: an optional
sign followed by one or more decimal digits.  The range check of `Atoi` is left
out, the integers here being unbounded. -/
def Atoi (s : String) : Option Int :=
  match s.data with
  | [] => none
  | c :: cs =>
      if c = '-' then
        if cs = [] then none else (parseDigits cs 0).map (fun n => -(n : Int))
      else if c = '+' then
        if cs = [] then none else (parseDigits cs 0).map (fun n => (n : Int))
      else (parseDigits (c :: cs) 0).map (fun n => (n : Int))

/-! ## Collaborators, events and effects -/

/-- An error value; only its message matters here. -/
abbrev Err := String

/-- The client returned by `gitlab.NewClient`. -/
structure GitlabClient where
  token : String
  deriving DecidableEq, Repr

/-- The client returned by `jira.NewClient` for a basic-auth transport. -/
structure JiraClient where
  username : String
  password : String
  baseURL : String
  deriving DecidableEq, Repr

/-- The request built by `jiraClient.NewRequest`. -/
structure Request where
  method : String
  path : String
  deriving DecidableEq, Repr

/-- The result of a call that returns a value or an error. -/
inductive Res (α : Type) where
  | ok (a : α)
  | error (e : Err)
  deriving DecidableEq, Repr

/-- What the program does to the outside: the lines written to standard output
and the calls made on the two trackers, each with the result it got. -/
inductive Event where
  | stdout (text : String)
  | jiraDo (req : Request) (result : Res Int)
  | getIssue (projectID : String) (issueID : Int) (result : Res GitlabIssue)
  | createIssue (fields : IssueFields) (result : Res JiraIssue)
  | updateIssue (projectID : String) (issueIID : Int) (addLabels : List String)
      (result : Res Unit)
  deriving DecidableEq, Repr

/-- The operations of the two client libraries, over a world state `σ`.  The
constructors and `NewRequest` do no network call and are functions of their
arguments; `jiraDo` (decoding the `id` of the answer), `getIssue`,
`createIssue` and `updateIssue` are the network calls. -/
structure Env (σ : Type) where
  gitlabNewClient : String → Res GitlabClient
  jiraNewClient : String → String → String → Res JiraClient
  jiraNewRequest : JiraClient → String → String → Res Request
  jiraDo : σ → JiraClient → Request → Res Int × σ
  getIssue : σ → GitlabClient → String → Int → Res GitlabIssue × σ
  createIssue : σ → JiraClient → IssueFields → Res JiraIssue × σ
  updateIssue : σ → GitlabClient → String → Int → List String → Res Unit × σ

/-- The value returned by an effectful function, the world after it, and the
events it produced, in order. -/
structure Effect (σ α : Type) where
  result : α
  world : σ
  trace : List Event

/-! ## `syncToJira` -/

/-- The description computed at the start of `syncToJira` (root.go, lines 218-231).
`none` is the panic of `template.Must` on a template that does not parse. -/
def description (gitlabIssue : GitlabIssue) (linkAsDescription : Bool) : Option String :=
  if !linkAsDescription then
    match parse JiraIssueDescriptionTemplate with
    | none => none
    | some descriptionTemplate =>
        some (execute descriptionTemplate
          [("Description", gitlabIssue.Description), ("GitlabURL", gitlabIssue.WebURL)])
  else
    some gitlabIssue.WebURL

/-- The `jira.IssueFields` literal passed to `client.Issue.Create` (root.go, lines
234-243). -/
def issueFields (project epic : String) (accountID : Int) (gitlabIssue : GitlabIssue)
    (description : String) : IssueFields :=
  { TypeName := "Story"
    ProjectKey := project
    Summary := gitlabIssue.Title
    Description := description
    Unknowns := [("customfield_10006", epic), ("customfield_10011", Itoa accountID)] }

/-- The function `syncToJira`: compute the description, submit the creation
request, return the created issue or the error.  `none` is a panic. -/
def syncToJira {σ : Type} (env : Env σ) (w : σ) (client : JiraClient) (project epic : String)
    (accountID : Int) (gitlabIssue : GitlabIssue) (linkAsDescription : Bool) :
    Option (Effect σ (Res JiraIssue)) :=
  match description gitlabIssue linkAsDescription with
  | none => none
  | some d =>
      let fields := issueFields project epic accountID gitlabIssue d
      match env.createIssue w client fields with
      | (.error e, w₁) => some ⟨.error e, w₁, [.createIssue fields (.error e)]⟩
      | (.ok issue, w₁) => some ⟨.ok issue, w₁, [.createIssue fields (.ok issue)]⟩

/-! ## `getGitlabIssues` -/

/-- The loop of `getGitlabIssues`: `issues` is the slice built so far. -/
def getGitlabIssuesFrom {σ : Type} (env : Env σ) (client : GitlabClient) (projectID : String) :
    List Int → List GitlabIssue → σ → Effect σ (Res (List GitlabIssue))
  | [], issues, w => ⟨.ok issues, w, []⟩
  | issueID :: rest, issues, w =>
      match env.getIssue w client projectID issueID with
      | (.error e, w₁) => ⟨.error e, w₁, [.getIssue projectID issueID (.error e)]⟩
      | (.ok issue, w₁) =>
          let r := getGitlabIssuesFrom env client projectID rest (issues ++ [issue]) w₁
          ⟨r.result, r.world, .getIssue projectID issueID (.ok issue) :: r.trace⟩

/-- The function `getGitlabIssues`. -/
def getGitlabIssues {σ : Type} (env : Env σ) (w : σ) (client : GitlabClient) (projectID : String)
    (issueIDs : List Int) : Effect σ (Res (List GitlabIssue)) :=
  getGitlabIssuesFrom env client projectID issueIDs [] w

/-! ## `rootCmd.Run` -/

/-- The values of the flags, as `cmd.Flags()` returns them. -/
structure Flags where
  version : Bool
  jiraProject : String
  jiraEpic : String
  jiraAccount : String
  gitlabProject : String
  gitlabIssue : List Int
  linkAsDescription : Bool
  deriving DecidableEq, Repr

/-- The values that `viper` holds. -/
structure Config where
  gitlab_token : String
  jira_url : String
  jira_username : String
  jira_password : String
  deriving DecidableEq, Repr

/-- How a run ends: `Run` returns, the process exits with a code, `cobra.CheckErr`
gets a message or an error (it prints it and exits with code 1), or a panic. -/
inductive Outcome where
  | returned
  | exit (code : Nat)
  | checkErr (msg : String)
  | panic
  deriving DecidableEq, Repr

/-- The confirmation line printed for a created issue (root.go, line 123). -/
def confirmation (jiraIssue : JiraIssue) (gitlabIssue : GitlabIssue) : String :=
  "Jira issue " ++ jiraIssue.Key ++ " is created from " ++ Itoa gitlabIssue.IID ++ "\n"

/-- The loop over the fetched issues (root.go, lines 119-129). -/
def runLoop {σ : Type} (env : Env σ) (flags : Flags) (jiraClient : JiraClient)
    (gitlabClient : GitlabClient) (accountID : Int) :
    List GitlabIssue → σ → Effect σ Outcome
  | [], w => ⟨.returned, w, []⟩
  | gitlabIssue :: rest, w =>
      match syncToJira env w jiraClient flags.jiraProject flags.jiraEpic accountID gitlabIssue
          flags.linkAsDescription with
      | none => ⟨.panic, w, []⟩
      | some ⟨.error e, w₁, t₁⟩ => ⟨.checkErr e, w₁, t₁⟩
      | some ⟨.ok jiraIssue, w₁, t₁⟩ =>
          let line := Event.stdout (confirmation jiraIssue gitlabIssue)
          match env.updateIssue w₁ gitlabClient flags.gitlabProject gitlabIssue.IID
              ["ticket created"] with
          | (.error e, w₂) =>
              ⟨.checkErr e, w₂,
                t₁ ++ [line, .updateIssue flags.gitlabProject gitlabIssue.IID ["ticket created"]
                  (.error e)]⟩
          | (.ok u, w₂) =>
              let r := runLoop env flags jiraClient gitlabClient accountID rest w₂
              ⟨r.result, r.world,
                t₁ ++ [line, .updateIssue flags.gitlabProject gitlabIssue.IID ["ticket created"]
                  (.ok u)] ++ r.trace⟩

/-- The body of `rootCmd.Run` (root.go, lines 57-130).  The flags are defined, so
reading them gives no error.  `commit[:8]` panics on a commit shorter than eight
bytes; a commit is a hexadecimal hash, whose first eight bytes are its first
eight characters. -/
def Run {σ : Type} (env : Env σ) (version commit : String) (flags : Flags) (cfg : Config)
    (w : σ) : Effect σ Outcome :=
  if flags.version then
    if commit.utf8ByteSize < 8 then ⟨.panic, w, []⟩
    else
      ⟨.exit 0, w,
        [.stdout ("jira-sync version " ++ version ++ ", commit " ++ commit.take 8 ++ "\n")]⟩
  else
    let jiraAccountName := flags.jiraAccount
    let gitlabProject := flags.gitlabProject
    let issueIDs := flags.gitlabIssue
    let token := cfg.gitlab_token
    if token = "" then ⟨.checkErr "no tokens were set in config", w, []⟩
    else
      let jiraURL := cfg.jira_url
      if token = "" then ⟨.checkErr "no Jira URLs were set in config", w, []⟩
      else
        match env.gitlabNewClient token with
        | .error e => ⟨.checkErr e, w, []⟩
        | .ok gitlabClient =>
        match env.jiraNewClient cfg.jira_username cfg.jira_password jiraURL with
        | .error e => ⟨.checkErr e, w, []⟩
        | .ok jiraClient =>
        match env.jiraNewRequest jiraClient "GET"
            ("/rest/tempo-accounts/1/account/key/" ++ jiraAccountName) with
        | .error e => ⟨.checkErr e, w, []⟩
        | .ok req =>
        match env.jiraDo w jiraClient req with
        | (.error e, w₁) => ⟨.checkErr e, w₁, [.jiraDo req (.error e)]⟩
        | (.ok jiraAccountID, w₁) =>
        let fetched := getGitlabIssues env w₁ gitlabClient gitlabProject issueIDs
        match fetched.result with
        | .error e => ⟨.checkErr e, fetched.world, .jiraDo req (.ok jiraAccountID) :: fetched.trace⟩
        | .ok gitlabIssues =>
            let r := runLoop env flags jiraClient gitlabClient jiraAccountID gitlabIssues
              fetched.world
            ⟨r.result, r.world, .jiraDo req (.ok jiraAccountID) :: (fetched.trace ++ r.trace)⟩

/-! ## `init` and `Execute` -/

/-- The flags as `init` defines them, each with its default value (root.go, lines
138-146). -/
def flagDefaults : Flags :=
  { version := false
    jiraProject := ""
    jiraEpic := ""
    jiraAccount := ""
    gitlabProject := ""
    gitlabIssue := []
    linkAsDescription := false }

/-- The flags that `init` marks as required (root.go, lines 150-168).  `init` runs
before the command line is parsed, so `GetBool("version")` reads the default. -/
def init : List String :=
  let askVersion := flagDefaults.version
  if askVersion then
    ["gitlab-project", "gitlab-issue", "jira-project", "jira-epic", "jira-account"]
  else []

/-- The flags given on a command line: `none` for a flag that is absent. -/
structure CommandLine where
  gitlabProject : Option String
  gitlabIssue : Option (List Int)
  jiraProject : Option String
  jiraEpic : Option String
  jiraAccount : Option String
  linkAsDescription : Option Bool
  version : Option Bool
  deriving DecidableEq, Repr

/-- Whether a flag was given on the command line. -/
def CommandLine.changed (args : CommandLine) (name : String) : Bool :=
  if name = "gitlab-project" then args.gitlabProject.isSome
  else if name = "gitlab-issue" then args.gitlabIssue.isSome
  else if name = "jira-project" then args.jiraProject.isSome
  else if name = "jira-epic" then args.jiraEpic.isSome
  else if name = "jira-account" then args.jiraAccount.isSome
  else if name = "link-as-description" then args.linkAsDescription.isSome
  else if name = "version" then args.version.isSome
  else false

/-- The values of the flags after parsing: the given value, or the default. -/
def CommandLine.flags (args : CommandLine) : Flags :=
  { version := args.version.getD flagDefaults.version
    jiraProject := args.jiraProject.getD flagDefaults.jiraProject
    jiraEpic := args.jiraEpic.getD flagDefaults.jiraEpic
    jiraAccount := args.jiraAccount.getD flagDefaults.jiraAccount
    gitlabProject := args.gitlabProject.getD flagDefaults.gitlabProject
    gitlabIssue := args.gitlabIssue.getD flagDefaults.gitlabIssue
    linkAsDescription := args.linkAsDescription.getD flagDefaults.linkAsDescription }

/-- The function `Execute`: cobra refuses a command line that lacks a required
flag, otherwise it calls `Run`; `cobra.CheckErr` reports the refusal. -/
def Execute {σ : Type} (env : Env σ) (cmdVersion cmdCommit : String) (args : CommandLine)
    (cfg : Config) (w : σ) : Effect σ Outcome :=
  let missing := init.filter (fun name => !args.changed name)
  if missing ≠ [] then
    ⟨.checkErr ("required flag(s) \"" ++ "\", \"".intercalate missing ++ "\" not set"), w, []⟩
  else Run env cmdVersion cmdCommit args.flags cfg w

/-! ## Definitions used to state the properties -/

/-- The template text before the first URL. -/
def textBeforeFirstURL : String :=
  "\n*_For newcomers: Before you log ANY time on this ticket, change the EPIC to your Onboarding epic!_*\n\nh3. Story\n\n\"As <>, I want to <>, so I <>.\"\n\nh3. Full description\n\nOriginal [description from GitLab|"

/-- The template text between the first URL and the description. -/
def textBeforeDescription : String :=
  "]:\n\n"

/-- The template text between the description and the second URL. -/
def textAfterDescription : String :=
  "\n\u00a0\nh3. Completion criteria\n * Open a pull request to address any issues if applicable\n * Close the related GitLab [issue|"

/-- The template text after the second URL. -/
def textAfterSecondURL : String :=
  "]\n\nh3. Documentation updates & improvements criteria\n * Up to the assignee\n\nh3. Review timeline\n * PR to be sent for review by first Friday\n * First PR review to be completed by second Monday\n"

/-- The onboarding reminder at the top of the template. -/
def onboardingReminder : String :=
  "*_For newcomers: Before you log ANY time on this ticket, change the EPIC to your Onboarding epic!_*"

/-- The number of places of `hay` at which `needle` starts. -/
def occurrences (needle : List Char) : List Char → Nat
  | [] => if needle = [] then 1 else 0
  | c :: cs => (if needle.isPrefixOf (c :: cs) then 1 else 0) + occurrences needle cs

/-- The description of an issue's ticket, written out: the URL in link mode,
otherwise the template text around the URL, the description and the URL. -/
def descriptionOf (gitlabIssue : GitlabIssue) (linkAsDescription : Bool) : String :=
  if linkAsDescription then gitlabIssue.WebURL
  else
    textBeforeFirstURL ++ gitlabIssue.WebURL ++ textBeforeDescription ++
      gitlabIssue.Description ++ textAfterDescription ++ gitlabIssue.WebURL ++
      textAfterSecondURL

/-- The creation request of an issue in a run. -/
def ticketRequest (flags : Flags) (accountID : Int) (gitlabIssue : GitlabIssue) : IssueFields :=
  issueFields flags.jiraProject flags.jiraEpic accountID gitlabIssue
    (descriptionOf gitlabIssue flags.linkAsDescription)

/-- The events of an issue that is synced: its ticket is created, the
confirmation line is printed, the label "ticket created" is added. -/
def successEvents (flags : Flags) (accountID : Int) (gitlabIssue : GitlabIssue)
    (jiraIssue : JiraIssue) : List Event :=
  [.createIssue (ticketRequest flags accountID gitlabIssue) (.ok jiraIssue),
    .stdout (confirmation jiraIssue gitlabIssue),
    .updateIssue flags.gitlabProject gitlabIssue.IID ["ticket created"] (.ok ())]

/-- Whether an event is a line printed or a call that succeeded. -/
def Event.succeeded : Event → Bool
  | .stdout _ => true
  | .jiraDo _ (.ok _) => true
  | .getIssue _ _ (.ok _) => true
  | .createIssue _ (.ok _) => true
  | .updateIssue _ _ _ (.ok _) => true
  | _ => false

/-- The creation requests submitted, in order. -/
def createRequests : List Event → List IssueFields
  | [] => []
  | .createIssue fields _ :: rest => fields :: createRequests rest
  | _ :: rest => createRequests rest

/-- The number of lines printed. -/
def confirmationLines (trace : List Event) : Nat :=
  trace.countP (fun ev => match ev with
    | .stdout _ => true
    | _ => false)

/-- The number of tickets created. -/
def createdTickets (trace : List Event) : Nat :=
  trace.countP (fun ev => match ev with
    | .createIssue _ (.ok _) => true
    | _ => false)

/-- The number of issues that got their label: those whose creation and label
update both succeeded. -/
def labelledIssues (trace : List Event) : Nat :=
  trace.countP (fun ev => match ev with
    | .updateIssue _ _ _ (.ok _) => true
    | _ => false)

/-- A pair of trackers for the examples.  The world is the number of tickets
created so far; the Jira tracker gives the next ticket the key `SE-n`, answers
every account lookup with the ID 7, rejects a ticket whose summary is listed,
and cannot be reached through a client without a base URL; the GitLab tracker
has an issue for every ID that is not listed as missing and refuses the label
update of the listed issues. -/
def scriptedEnv (rejectedSummaries : List String) (refusedLabels missing : List Int) : Env Nat :=
  { gitlabNewClient := fun token => .ok ⟨token⟩
    jiraNewClient := fun username password url => .ok ⟨username, password, url⟩
    jiraNewRequest := fun _ method path => .ok ⟨method, path⟩
    jiraDo := fun w client req =>
      if client.baseURL = "" then
        (.error ("Get \"" ++ req.path ++ "\": unsupported protocol scheme \"\""), w)
      else (.ok 7, w)
    getIssue := fun w _ _ issueID =>
      if issueID ∈ missing then (.error "404 Not Found", w)
      else
        (.ok ⟨issueID, "Issue " ++ Itoa issueID, "Text " ++ Itoa issueID,
          "https://x/y/" ++ Itoa issueID⟩, w)
    createIssue := fun w _ fields =>
      if fields.Summary ∈ rejectedSummaries then (.error "400 Bad Request", w)
      else (.ok ⟨"SE-" ++ Itoa (w + 1)⟩, w + 1)
    updateIssue := fun w _ _ issueIID _ =>
      if issueIID ∈ refusedLabels then (.error "403 Forbidden", w) else (.ok (), w) }

/-- The issue that `scriptedEnv` holds for an ID. -/
def scriptedIssue (issueID : Int) : GitlabIssue :=
  ⟨issueID, "Issue " ++ Itoa issueID, "Text " ++ Itoa issueID, "https://x/y/" ++ Itoa issueID⟩

/-- The flags of the examples: project `SE`, epic `SE-100`, account `ABC`, the
issues 5, 9 and 2 of `group/project`, rendered descriptions. -/
def exampleFlags : Flags :=
  { version := false
    jiraProject := "SE"
    jiraEpic := "SE-100"
    jiraAccount := "ABC"
    gitlabProject := "group/project"
    gitlabIssue := [5, 9, 2]
    linkAsDescription := false }

/-- The Jira client of the examples. -/
def exampleJiraClient : JiraClient :=
  ⟨"user", "secret", "https://jira.example"⟩

/-- The GitLab client of the examples. -/
def exampleGitlabClient : GitlabClient :=
  ⟨"token"⟩

/-- The configuration of the examples. -/
def exampleConfig : Config :=
  { gitlab_token := "token"
    jira_url := "https://jira.example"
    jira_username := "user"
    jira_password := "secret" }

/-- A command line that gives every flag of a sync of issue 3 but `jira-account`. -/
def absentAccountArgs : CommandLine :=
  { gitlabProject := some "group/project"
    gitlabIssue := some [3]
    jiraProject := some "SE"
    jiraEpic := some "SE-100"
    jiraAccount := none
    linkAsDescription := none
    version := none }

/-- The retrievals of a list of IDs that all succeed: starting at world `w`, the
tracker answers each ID in turn with the issue at the same position, and leaves
the world `w'`. -/
inductive Retrieved {σ : Type} (env : Env σ) (client : GitlabClient) (projectID : String) :
    List Int → σ → List GitlabIssue → σ → Prop where
  | nil (w : σ) : Retrieved env client projectID [] w [] w
  | cons {issueID : Int} {rest : List Int} {issue : GitlabIssue} {issues : List GitlabIssue}
      {w w₁ w₂ : σ} (hget : env.getIssue w client projectID issueID = (.ok issue, w₁))
      (hrest : Retrieved env client projectID rest w₁ issues w₂) :
      Retrieved env client projectID (issueID :: rest) w (issue :: issues) w₂

/-! ## The template and the description -/

set_option maxRecDepth 100000 in
/-- The template parses into four texts around three field actions. -/
theorem parse_template :
    parse JiraIssueDescriptionTemplate =
      some [.text textBeforeFirstURL.data, .field "GitlabURL".data,
        .text textBeforeDescription.data, .field "Description".data,
        .text textAfterDescription.data, .field "GitlabURL".data,
        .text textAfterSecondURL.data] := by
  decide

/-- The rendered description: the four texts with the URL, the description and
the URL again between them. -/
theorem description_rendered (gitlabIssue : GitlabIssue) :
    description gitlabIssue false =
      some (textBeforeFirstURL ++ gitlabIssue.WebURL ++ textBeforeDescription ++
        gitlabIssue.Description ++ textAfterDescription ++ gitlabIssue.WebURL ++
        textAfterSecondURL) := by
  simp only [description, parse_template]
  rfl

/-! ## Decimal text: reading back what `Itoa` wrote -/

theorem digitValue_digitChar (d : Nat) (h : d < 10) : digitValue (digitChar d) = some d := by
  interval_cases d <;> rfl

theorem digitChar_not_sign (d : Nat) (h : d < 10) :
    digitChar d ≠ '-' ∧ digitChar d ≠ '+' := by
  interval_cases d <;> decide

theorem parseDigits_append (a b : List Char) (acc : Nat) :
    parseDigits (a ++ b) acc = (parseDigits a acc).bind (parseDigits b) := by
  induction a generalizing acc with
  | nil => rfl
  | cons c cs ih =>
      simp only [List.cons_append, parseDigits]
      cases digitValue c with
      | none => rfl
      | some d => exact ih _

/-- The digit loop writes a non-empty run of digits, starting with a digit, that
reads back as the number. -/
theorem decimalAux_spec (fuel : Nat) :
    ∀ (n : Nat) (acc : List Char), n < fuel →
      ∃ ds : List Char, decimalAux fuel n acc = ds ++ acc ∧
        (∀ a, parseDigits ds a = some (a * 10 ^ ds.length + n)) ∧
        ∃ d t, d < 10 ∧ ds = digitChar d :: t := by
  induction fuel with
  | zero => intro n acc h; omega
  | succ fuel ih =>
      intro n acc h
      by_cases hn : n < 10
      · refine ⟨[digitChar n], ?_, ?_, n, [], hn, rfl⟩
        · simp [decimalAux, hn]
        · intro a
          simp [parseDigits, digitValue_digitChar n hn]
      · have hlt : n / 10 < fuel := by omega
        obtain ⟨ds, hds, hparse, d, t, hd, hdt⟩ := ih (n / 10) (digitChar (n % 10) :: acc) hlt
        refine ⟨ds ++ [digitChar (n % 10)], ?_, ?_, d, t ++ [digitChar (n % 10)], hd, ?_⟩
        · simp [decimalAux, hn, hds]
        · intro a
          have hmod : n % 10 < 10 := Nat.mod_lt _ (by decide)
          rw [parseDigits_append, hparse a]
          simp only [Option.some_bind, parseDigits, digitValue_digitChar _ hmod,
            List.length_append, List.length_singleton]
          congr 1
          rw [pow_succ]
          have := Nat.div_add_mod n 10
          nlinarith [this]
        · simp [hdt]

theorem natToDecimal_spec (n : Nat) :
    parseDigits (natToDecimal n) 0 = some n ∧
      ∃ d t, d < 10 ∧ natToDecimal n = digitChar d :: t := by
  obtain ⟨ds, hds, hparse, hhead⟩ := decimalAux_spec (n + 1) n [] (Nat.lt_succ_self n)
  have h : natToDecimal n = ds := by simpa [natToDecimal] using hds
  rw [h]
  exact ⟨by simpa using hparse 0, hhead⟩

/-- Reading the text of an integer back gives the integer. -/
theorem Atoi_Itoa (i : Int) : Atoi (Itoa i) = some i := by
  by_cases hi : i < 0
  · obtain ⟨hparse, d, t, _, hdt⟩ := natToDecimal_spec (-i).toNat
    have hne : natToDecimal (-i).toNat ≠ [] := by rw [hdt]; simp
    simp only [Itoa, hi, if_true, Atoi, hne, if_false, hparse, Option.map_some']
    simp
    omega
  · obtain ⟨hparse, d, t, hd, hdt⟩ := natToDecimal_spec i.toNat
    obtain ⟨h1, h2⟩ := digitChar_not_sign d hd
    simp only [Itoa, hi, if_false, Atoi, hdt, h1, h2]
    rw [← hdt, hparse]
    simp
    omega

/-! ## Occurrences of a text in a text -/

theorem occurrences_nil_pos (hay : List Char) : hay.length + 1 = occurrences [] hay := by
  induction hay with
  | nil => simp [occurrences]
  | cons c cs ih => simp [occurrences, ← ih]; omega

theorem occurrences_le_append (needle a b : List Char) :
    occurrences needle b ≤ occurrences needle (a ++ b) := by
  induction a with
  | nil => simp
  | cons c cs ih =>
      show occurrences needle b ≤
        (if needle.isPrefixOf (c :: (cs ++ b)) then 1 else 0) + occurrences needle (cs ++ b)
      omega

theorem occurrences_self_append (needle b : List Char) (h : needle ≠ []) :
    occurrences needle b + 1 ≤ occurrences needle (needle ++ b) := by
  cases needle with
  | nil => exact absurd rfl h
  | cons c cs =>
      have hp : (c :: cs).isPrefixOf (c :: (cs ++ b)) = true := by
        rw [List.isPrefixOf_iff_prefix]
        exact List.prefix_append (c :: cs) b
      have := occurrences_le_append (c :: cs) cs b
      show occurrences (c :: cs) b + 1 ≤
        (if (c :: cs).isPrefixOf (c :: (cs ++ b)) then 1 else 0) + occurrences (c :: cs) (cs ++ b)
      rw [if_pos hp]
      omega

/-- A text inserted once occurs at least once. -/
theorem occurrences_once (needle a b : List Char) :
    1 ≤ occurrences needle (a ++ (needle ++ b)) := by
  by_cases h : needle = []
  · subst h
    have := occurrences_nil_pos (a ++ ([] ++ b))
    omega
  · have h₁ := occurrences_le_append needle a (needle ++ b)
    have h₂ := occurrences_self_append needle b h
    omega

/-- A text inserted twice, after a non-empty text, occurs at least twice. -/
theorem occurrences_twice (needle a m b : List Char) (ha : a ≠ []) :
    2 ≤ occurrences needle (a ++ (needle ++ (m ++ (needle ++ b)))) := by
  by_cases h : needle = []
  · subst h
    have := occurrences_nil_pos (a ++ ([] ++ (m ++ ([] ++ b))))
    have hlen : 0 < a.length := List.length_pos.mpr ha
    simp only [List.length_append] at this
    omega
  · have h₁ := occurrences_le_append needle a (needle ++ (m ++ (needle ++ b)))
    have h₂ := occurrences_self_append needle (m ++ (needle ++ b)) h
    have h₃ := occurrences_le_append needle m (needle ++ b)
    have h₄ := occurrences_self_append needle b h
    omega

/-- In a text made of four texts with `u`, `d` and `u` again between them, `d`
occurs at least once and `u` at least twice. -/
theorem occurrences_inserted (a u b d c e : String) (ha : a.data ≠ []) :
    1 ≤ occurrences d.data (a ++ u ++ b ++ d ++ c ++ u ++ e).data ∧
      2 ≤ occurrences u.data (a ++ u ++ b ++ d ++ c ++ u ++ e).data := by
  simp only [String.data_append, List.append_assoc]
  constructor
  · have := occurrences_once d.data (a.data ++ (u.data ++ b.data)) (c.data ++ (u.data ++ e.data))
    simpa only [List.append_assoc] using this
  · exact occurrences_twice u.data a.data (b.data ++ (d.data ++ c.data)) e.data ha |>.trans
      (by simp only [List.append_assoc]; exact le_refl _)

/-! ## The creation request and its description -/

set_option maxRecDepth 100000 in
theorem textBeforeFirstURL_data_ne_nil : textBeforeFirstURL.data ≠ [] :=
  fun h => absurd (String.ext h : textBeforeFirstURL = "") (by decide)

/-- The creation call of `syncToJira`, given the description. -/
theorem syncToJira_of_description {σ : Type} (env : Env σ) (w : σ) (client : JiraClient)
    (project epic : String) (accountID : Int) (gitlabIssue : GitlabIssue)
    (linkAsDescription : Bool) (d : String)
    (hd : description gitlabIssue linkAsDescription = some d) :
    syncToJira env w client project epic accountID gitlabIssue linkAsDescription =
      some ⟨(env.createIssue w client (issueFields project epic accountID gitlabIssue d)).1,
        (env.createIssue w client (issueFields project epic accountID gitlabIssue d)).2,
        [.createIssue (issueFields project epic accountID gitlabIssue d)
          (env.createIssue w client (issueFields project epic accountID gitlabIssue d)).1]⟩ := by
  simp only [syncToJira, hd]
  rcases hc : env.createIssue w client (issueFields project epic accountID gitlabIssue d) with
    ⟨r, w₁⟩
  cases r <;> rfl

/-- The description is always defined: the template parses. -/
theorem description_isSome (gitlabIssue : GitlabIssue) (linkAsDescription : Bool) :
    ∃ d, description gitlabIssue linkAsDescription = some d := by
  cases linkAsDescription with
  | false => exact ⟨_, description_rendered gitlabIssue⟩
  | true => exact ⟨gitlabIssue.WebURL, rfl⟩

/-- C1: for every issue, project key, epic key, account ID and description mode,
`syncToJira` submits one creation request, whose type name is "Story", whose
project key is the given one, whose summary is the issue's title, whose
description is the computed description, and whose custom fields are exactly
`customfield_10006` with the epic key and `customfield_10011` with the decimal
text of the account ID; 42 gives "42", and the text reads back as the ID. -/
theorem C1_syncToJira_request {σ : Type} (env : Env σ) (w : σ) (client : JiraClient)
    (project epic : String) (accountID : Int) (gitlabIssue : GitlabIssue)
    (linkAsDescription : Bool) :
    ∃ d : String, description gitlabIssue linkAsDescription = some d ∧
      ∃ (result : Res JiraIssue) (w₁ : σ),
        syncToJira env w client project epic accountID gitlabIssue linkAsDescription =
          some ⟨result, w₁,
            [.createIssue
              { TypeName := "Story"
                ProjectKey := project
                Summary := gitlabIssue.Title
                Description := d
                Unknowns :=
                  [("customfield_10006", epic), ("customfield_10011", Itoa accountID)] }
              result]⟩ ∧
        Itoa 42 = "42" ∧ Atoi (Itoa accountID) = some accountID := by
  obtain ⟨d, hd⟩ := description_isSome gitlabIssue linkAsDescription
  exact ⟨d, hd, _, _,
    syncToJira_of_description env w client project epic accountID gitlabIssue linkAsDescription d hd,
    by decide, Atoi_Itoa accountID⟩

set_option maxRecDepth 100000 in
/-- C2, as stated, fails: in the description rendered for the issue with
description "Crash on load" and URL "https://x/y/3" the URL occurs twice, and in
the one rendered for an issue with description "Story" the description occurs
twice. -/
theorem C2_counterexample :
    (description ⟨3, "Fix bug", "Crash on load", "https://x/y/3"⟩ false).map
        (fun d => occurrences "https://x/y/3".data d.data) = some 2 ∧
      (description ⟨4, "Fix bug", "Story", "https://x/y/4"⟩ false).map
        (fun d => occurrences "Story".data d.data) = some 2 := by
  decide

set_option maxRecDepth 100000 in
/-- C2, amended: with link-as-description false the rendered description is the
template text with the issue's description inserted verbatim at one place and
the issue's URL inserted verbatim at two places; the description occurs in it at
least once and the URL at least twice. -/
theorem C2_description_inserts (gitlabIssue : GitlabIssue) :
    ∃ d : String, description gitlabIssue false = some d ∧
      d = textBeforeFirstURL ++ gitlabIssue.WebURL ++ textBeforeDescription ++
        gitlabIssue.Description ++ textAfterDescription ++ gitlabIssue.WebURL ++
        textAfterSecondURL ∧
      1 ≤ occurrences gitlabIssue.Description.data d.data ∧
      2 ≤ occurrences gitlabIssue.WebURL.data d.data := by
  have h := occurrences_inserted textBeforeFirstURL gitlabIssue.WebURL textBeforeDescription
    gitlabIssue.Description textAfterDescription textAfterSecondURL
    textBeforeFirstURL_data_ne_nil
  exact ⟨_, description_rendered gitlabIssue, rfl, h.1, h.2⟩

/-- C3: with link-as-description true the description is the issue's URL, whatever
the issue's free-text description is, and it is the description of the creation
request that `syncToJira` submits. -/
theorem C3_link_as_description {σ : Type} (env : Env σ) (w : σ) (client : JiraClient)
    (project epic : String) (accountID : Int) (gitlabIssue : GitlabIssue) :
    description gitlabIssue true = some gitlabIssue.WebURL ∧
      ∃ (result : Res JiraIssue) (w₁ : σ),
        syncToJira env w client project epic accountID gitlabIssue true =
          some ⟨result, w₁,
            [.createIssue
              { TypeName := "Story"
                ProjectKey := project
                Summary := gitlabIssue.Title
                Description := gitlabIssue.WebURL
                Unknowns :=
                  [("customfield_10006", epic), ("customfield_10011", Itoa accountID)] }
              result]⟩ :=
  ⟨rfl, _, _,
    syncToJira_of_description env w client project epic accountID gitlabIssue true
      gitlabIssue.WebURL rfl⟩

set_option maxRecDepth 100000 in
/-- C9: with link-as-description false the rendered description is the constant
template text with only the issue's URL and description inserted, unescaped;
two issues with the same description and URL render identically; the constant
text holds the onboarding reminder and then the headers "Story", "Full
description", "Completion criteria", "Documentation updates & improvements
criteria" and "Review timeline", in this order. -/
theorem C9_fixed_template :
    (∀ gitlabIssue : GitlabIssue,
      description gitlabIssue false =
        some (textBeforeFirstURL ++ gitlabIssue.WebURL ++ textBeforeDescription ++
          gitlabIssue.Description ++ textAfterDescription ++ gitlabIssue.WebURL ++
          textAfterSecondURL)) ∧
    (∀ (iid₁ iid₂ : Int) (title₁ title₂ text url : String),
      description ⟨iid₁, title₁, text, url⟩ false =
        description ⟨iid₂, title₂, text, url⟩ false) ∧
    textBeforeFirstURL =
      "\n" ++ onboardingReminder ++ "\n\n" ++ "h3. Story" ++
        "\n\n\"As <>, I want to <>, so I <>.\"\n\n" ++ "h3. Full description" ++
        "\n\nOriginal [description from GitLab|" ∧
    textBeforeDescription = "]:\n\n" ∧
    textAfterDescription =
      "\n\u00a0\n" ++ "h3. Completion criteria" ++
        "\n * Open a pull request to address any issues if applicable\n * Close the related GitLab [issue|" ∧
    textAfterSecondURL =
      "]\n\n" ++ "h3. Documentation updates & improvements criteria" ++
        "\n * Up to the assignee\n\n" ++ "h3. Review timeline" ++
        "\n * PR to be sent for review by first Friday\n * First PR review to be completed by second Monday\n" := by
  refine ⟨description_rendered, ?_, by decide, by decide, by decide, by decide⟩
  intro iid₁ iid₂ title₁ title₂ text url
  rw [description_rendered, description_rendered]

/-! ## The loop over the fetched issues -/

theorem description_eq (gitlabIssue : GitlabIssue) (linkAsDescription : Bool) :
    description gitlabIssue linkAsDescription =
      some (descriptionOf gitlabIssue linkAsDescription) := by
  cases linkAsDescription with
  | false => exact description_rendered gitlabIssue
  | true => rfl

/-- The call of `syncToJira` in a run, by the result of the creation. -/
theorem syncToJira_eq {σ : Type} (env : Env σ) (flags : Flags) (jiraClient : JiraClient)
    (accountID : Int) (x : GitlabIssue) (w w₁ : σ) (r : Res JiraIssue)
    (hc : env.createIssue w jiraClient (ticketRequest flags accountID x) = (r, w₁)) :
    syncToJira env w jiraClient flags.jiraProject flags.jiraEpic accountID x
        flags.linkAsDescription =
      some ⟨r, w₁, [.createIssue (ticketRequest flags accountID x) r]⟩ := by
  have hc₁ : env.createIssue w jiraClient
      (issueFields flags.jiraProject flags.jiraEpic accountID x
        (descriptionOf x flags.linkAsDescription)) = (r, w₁) := hc
  rw [syncToJira_of_description env w jiraClient flags.jiraProject flags.jiraEpic
    accountID x flags.linkAsDescription _ (description_eq x flags.linkAsDescription), hc₁]
  rfl

/-- A turn of the loop in which the creation fails. -/
theorem runLoop_createError {σ : Type} (env : Env σ) (flags : Flags) (jiraClient : JiraClient)
    (gitlabClient : GitlabClient) (accountID : Int) (x : GitlabIssue)
    (rest : List GitlabIssue) (w w₁ : σ) (e : Err)
    (hc : env.createIssue w jiraClient (ticketRequest flags accountID x) = (.error e, w₁)) :
    runLoop env flags jiraClient gitlabClient accountID (x :: rest) w =
      ⟨.checkErr e, w₁, [.createIssue (ticketRequest flags accountID x) (.error e)]⟩ := by
  rw [runLoop, syncToJira_eq env flags jiraClient accountID x w w₁ _ hc]

/-- A turn of the loop in which the creation succeeds and the label update fails. -/
theorem runLoop_updateError {σ : Type} (env : Env σ) (flags : Flags) (jiraClient : JiraClient)
    (gitlabClient : GitlabClient) (accountID : Int) (x : GitlabIssue)
    (rest : List GitlabIssue) (w w₁ w₂ : σ) (key : JiraIssue) (e : Err)
    (hc : env.createIssue w jiraClient (ticketRequest flags accountID x) = (.ok key, w₁))
    (hu : env.updateIssue w₁ gitlabClient flags.gitlabProject x.IID ["ticket created"] =
      (.error e, w₂)) :
    runLoop env flags jiraClient gitlabClient accountID (x :: rest) w =
      ⟨.checkErr e, w₂,
        [.createIssue (ticketRequest flags accountID x) (.ok key),
          .stdout (confirmation key x),
          .updateIssue flags.gitlabProject x.IID ["ticket created"] (.error e)]⟩ := by
  rw [runLoop, syncToJira_eq env flags jiraClient accountID x w w₁ _ hc]
  simp only [hu]
  rfl

/-- A turn of the loop in which both calls succeed. -/
theorem runLoop_ok {σ : Type} (env : Env σ) (flags : Flags) (jiraClient : JiraClient)
    (gitlabClient : GitlabClient) (accountID : Int) (x : GitlabIssue)
    (rest : List GitlabIssue) (w w₁ w₂ : σ) (key : JiraIssue) (u : Unit)
    (hc : env.createIssue w jiraClient (ticketRequest flags accountID x) = (.ok key, w₁))
    (hu : env.updateIssue w₁ gitlabClient flags.gitlabProject x.IID ["ticket created"] =
      (.ok u, w₂)) :
    runLoop env flags jiraClient gitlabClient accountID (x :: rest) w =
      ⟨(runLoop env flags jiraClient gitlabClient accountID rest w₂).result,
        (runLoop env flags jiraClient gitlabClient accountID rest w₂).world,
        successEvents flags accountID x key ++
          (runLoop env flags jiraClient gitlabClient accountID rest w₂).trace⟩ := by
  rw [runLoop, syncToJira_eq env flags jiraClient accountID x w w₁ _ hc]
  simp only [hu]
  rfl

/-- The loop over a batch whose first part is synced goes on with the rest. -/
theorem runLoop_append {σ : Type} (env : Env σ) (flags : Flags) (jiraClient : JiraClient)
    (gitlabClient : GitlabClient) (accountID : Int) (pre post : List GitlabIssue) :
    ∀ w : σ, (runLoop env flags jiraClient gitlabClient accountID pre w).result = .returned →
      runLoop env flags jiraClient gitlabClient accountID (pre ++ post) w =
        ⟨(runLoop env flags jiraClient gitlabClient accountID post
            (runLoop env flags jiraClient gitlabClient accountID pre w).world).result,
          (runLoop env flags jiraClient gitlabClient accountID post
            (runLoop env flags jiraClient gitlabClient accountID pre w).world).world,
          (runLoop env flags jiraClient gitlabClient accountID pre w).trace ++
            (runLoop env flags jiraClient gitlabClient accountID post
              (runLoop env flags jiraClient gitlabClient accountID pre w).world).trace⟩ := by
  induction pre with
  | nil => intro w _; rfl
  | cons x pre ih =>
      intro w h
      rcases hc : env.createIssue w jiraClient (ticketRequest flags accountID x) with ⟨r, w₁⟩
      cases r with
      | error e =>
          rw [runLoop_createError env flags jiraClient gitlabClient accountID x pre w w₁ e hc] at h
          cases h
      | ok key =>
          rcases hu : env.updateIssue w₁ gitlabClient flags.gitlabProject x.IID
            ["ticket created"] with ⟨u, w₂⟩
          cases u with
          | error e =>
              rw [runLoop_updateError env flags jiraClient gitlabClient accountID x pre w w₁ w₂
                key e hc hu] at h
              cases h
          | ok u =>
              rw [runLoop_ok env flags jiraClient gitlabClient accountID x pre w w₁ w₂ key u
                hc hu] at h ⊢
              rw [List.cons_append, runLoop_ok env flags jiraClient gitlabClient accountID x
                (pre ++ post) w w₁ w₂ key u hc hu, ih w₂ h]
              simp only [List.append_assoc]

/-- The trace of a loop that returns: the events of a synced issue, for each
issue of the batch in order. -/
theorem runLoop_returned {σ : Type} (env : Env σ) (flags : Flags) (jiraClient : JiraClient)
    (gitlabClient : GitlabClient) (accountID : Int) (batch : List GitlabIssue) :
    ∀ w : σ, (runLoop env flags jiraClient gitlabClient accountID batch w).result = .returned →
      ∃ keys : List JiraIssue, keys.length = batch.length ∧
        (runLoop env flags jiraClient gitlabClient accountID batch w).trace =
          (List.zipWith (successEvents flags accountID) batch keys).flatten := by
  induction batch with
  | nil => intro w _; exact ⟨[], rfl, rfl⟩
  | cons x batch ih =>
      intro w h
      rcases hc : env.createIssue w jiraClient (ticketRequest flags accountID x) with ⟨r, w₁⟩
      cases r with
      | error e =>
          rw [runLoop_createError env flags jiraClient gitlabClient accountID x batch w w₁ e
            hc] at h
          cases h
      | ok key =>
          rcases hu : env.updateIssue w₁ gitlabClient flags.gitlabProject x.IID
            ["ticket created"] with ⟨u, w₂⟩
          cases u with
          | error e =>
              rw [runLoop_updateError env flags jiraClient gitlabClient accountID x batch w w₁
                w₂ key e hc hu] at h
              cases h
          | ok u =>
              rw [runLoop_ok env flags jiraClient gitlabClient accountID x batch w w₁ w₂ key u
                hc hu] at h ⊢
              obtain ⟨keys, hlen, htrace⟩ := ih w₂ h
              refine ⟨key :: keys, by simp [hlen], ?_⟩
              simp only [List.zipWith_cons_cons, List.flatten_cons, htrace]

/-- A loop whose calls all succeed returns. -/
theorem runLoop_succeeded {σ : Type} (env : Env σ) (flags : Flags) (jiraClient : JiraClient)
    (gitlabClient : GitlabClient) (accountID : Int) (batch : List GitlabIssue) :
    ∀ w : σ,
      (∀ ev ∈ (runLoop env flags jiraClient gitlabClient accountID batch w).trace,
        ev.succeeded = true) →
      (runLoop env flags jiraClient gitlabClient accountID batch w).result = .returned := by
  induction batch with
  | nil => intro w _; rfl
  | cons x batch ih =>
      intro w h
      rcases hc : env.createIssue w jiraClient (ticketRequest flags accountID x) with ⟨r, w₁⟩
      cases r with
      | error e =>
          rw [runLoop_createError env flags jiraClient gitlabClient accountID x batch w w₁ e
            hc] at h
          have := h _ (List.mem_singleton.mpr rfl)
          simp [Event.succeeded] at this
      | ok key =>
          rcases hu : env.updateIssue w₁ gitlabClient flags.gitlabProject x.IID
            ["ticket created"] with ⟨u, w₂⟩
          cases u with
          | error e =>
              rw [runLoop_updateError env flags jiraClient gitlabClient accountID x batch w w₁
                w₂ key e hc hu] at h
              have := h (.updateIssue flags.gitlabProject x.IID ["ticket created"] (.error e))
                (by simp)
              simp [Event.succeeded] at this
          | ok u =>
              rw [runLoop_ok env flags jiraClient gitlabClient accountID x batch w w₁ w₂ key u
                hc hu] at h ⊢
              exact ih w₂ (fun ev hev => h ev (List.mem_append_right _ hev))

/-- The creation requests in the events of synced issues. -/
theorem createRequests_successEvents (flags : Flags) (accountID : Int) :
    ∀ (batch : List GitlabIssue) (keys : List JiraIssue), keys.length = batch.length →
      createRequests (List.zipWith (successEvents flags accountID) batch keys).flatten =
        batch.map (ticketRequest flags accountID) := by
  intro batch
  induction batch with
  | nil => intro keys _; simp [createRequests]
  | cons x batch ih =>
      intro keys hlen
      cases keys with
      | nil => simp at hlen
      | cons key keys =>
          have hlen₁ : keys.length = batch.length := by simpa using hlen
          have h := ih keys hlen₁
          simp only [List.zipWith_cons_cons, List.flatten_cons, List.map_cons]
          show ticketRequest flags accountID x ::
            createRequests (List.zipWith (successEvents flags accountID) batch keys).flatten = _
          rw [h]

/-- C4: when the creation or the label update of the issue at a position is the
first call to fail (the issues before it are synced, and at the world they
leave the creation fails, or succeeds with the label update failing), the run
ends with that error; its trace is the events of the synced issues before the
position, each with its ticket created and its label added, followed by the
failed creation alone, or by the creation, the confirmation line and the failed
label update; no call is made for an issue after the position. -/
theorem C4_first_failure_stops_batch {σ : Type} (env : Env σ) (flags : Flags)
    (jiraClient : JiraClient) (gitlabClient : GitlabClient) (accountID : Int)
    (pre post : List GitlabIssue) (x : GitlabIssue) (w : σ)
    (hpre : (runLoop env flags jiraClient gitlabClient accountID pre w).result = .returned)
    (hfail :
      (∃ e, (env.createIssue (runLoop env flags jiraClient gitlabClient accountID pre w).world
          jiraClient (ticketRequest flags accountID x)).1 = .error e) ∨
      (∃ key e,
        (env.createIssue (runLoop env flags jiraClient gitlabClient accountID pre w).world
          jiraClient (ticketRequest flags accountID x)).1 = .ok key ∧
        (env.updateIssue
          (env.createIssue (runLoop env flags jiraClient gitlabClient accountID pre w).world
            jiraClient (ticketRequest flags accountID x)).2
          gitlabClient flags.gitlabProject x.IID ["ticket created"]).1 = .error e)) :
    ∃ (keys : List JiraIssue) (e : Err), keys.length = pre.length ∧
      (runLoop env flags jiraClient gitlabClient accountID (pre ++ x :: post) w).result =
        .checkErr e ∧
      (((env.createIssue (runLoop env flags jiraClient gitlabClient accountID pre w).world
            jiraClient (ticketRequest flags accountID x)).1 = .error e ∧
          (runLoop env flags jiraClient gitlabClient accountID (pre ++ x :: post) w).trace =
            (List.zipWith (successEvents flags accountID) pre keys).flatten ++
              [.createIssue (ticketRequest flags accountID x) (.error e)]) ∨
        (∃ key,
          (env.createIssue (runLoop env flags jiraClient gitlabClient accountID pre w).world
            jiraClient (ticketRequest flags accountID x)).1 = .ok key ∧
          (runLoop env flags jiraClient gitlabClient accountID (pre ++ x :: post) w).trace =
            (List.zipWith (successEvents flags accountID) pre keys).flatten ++
              [.createIssue (ticketRequest flags accountID x) (.ok key),
                .stdout (confirmation key x),
                .updateIssue flags.gitlabProject x.IID ["ticket created"] (.error e)])) := by
  obtain ⟨keys, hlen, htrace⟩ :=
    runLoop_returned env flags jiraClient gitlabClient accountID pre w hpre
  rw [runLoop_append env flags jiraClient gitlabClient accountID pre (x :: post) w hpre, htrace]
  generalize (runLoop env flags jiraClient gitlabClient accountID pre w).world = wk at hfail ⊢
  rcases hc : env.createIssue wk jiraClient (ticketRequest flags accountID x) with ⟨r, w₁⟩
  rw [hc] at hfail
  cases r with
  | error e =>
      rw [runLoop_createError env flags jiraClient gitlabClient accountID x post wk w₁ e hc]
      exact ⟨keys, e, hlen, rfl, Or.inl ⟨rfl, rfl⟩⟩
  | ok key =>
      rcases hfail with ⟨e, he⟩ | ⟨key₁, e, hkey, hupd⟩
      · cases he
      · rcases hu : env.updateIssue w₁ gitlabClient flags.gitlabProject x.IID
          ["ticket created"] with ⟨u, w₂⟩
        have hupd₁ : (env.updateIssue w₁ gitlabClient flags.gitlabProject x.IID
          ["ticket created"]).1 = .error e := hupd
        rw [hu] at hupd₁
        have hue : u = .error e := hupd₁
        subst hue
        rw [runLoop_updateError env flags jiraClient gitlabClient accountID x post wk w₁ w₂ key
          e hc hu]
        exact ⟨keys, e, hlen, rfl, Or.inr ⟨key, rfl, rfl⟩⟩

set_option maxRecDepth 100000 in
/-- C4 on the batch 5, 9, 2 with the creation for issue 9 rejected: issue 5 keeps
its ticket and its label, and nothing is attempted for issue 2. -/
theorem C4_first_failure_stops_batch_witness :
    (∃ (keys : List JiraIssue) (e : Err), keys.length = [scriptedIssue 5].length ∧
      (runLoop (scriptedEnv ["Issue 9"] [] []) exampleFlags exampleJiraClient
        exampleGitlabClient 7 ([scriptedIssue 5] ++ scriptedIssue 9 :: [scriptedIssue 2])
        0).result = .checkErr e ∧
      ((((scriptedEnv ["Issue 9"] [] []).createIssue
            (runLoop (scriptedEnv ["Issue 9"] [] []) exampleFlags exampleJiraClient
              exampleGitlabClient 7 [scriptedIssue 5] 0).world
            exampleJiraClient (ticketRequest exampleFlags 7 (scriptedIssue 9))).1 = .error e ∧
          (runLoop (scriptedEnv ["Issue 9"] [] []) exampleFlags exampleJiraClient
            exampleGitlabClient 7 ([scriptedIssue 5] ++ scriptedIssue 9 :: [scriptedIssue 2])
            0).trace =
            (List.zipWith (successEvents exampleFlags 7) [scriptedIssue 5] keys).flatten ++
              [.createIssue (ticketRequest exampleFlags 7 (scriptedIssue 9)) (.error e)]) ∨
        (∃ key,
          ((scriptedEnv ["Issue 9"] [] []).createIssue
            (runLoop (scriptedEnv ["Issue 9"] [] []) exampleFlags exampleJiraClient
              exampleGitlabClient 7 [scriptedIssue 5] 0).world
            exampleJiraClient (ticketRequest exampleFlags 7 (scriptedIssue 9))).1 = .ok key ∧
          (runLoop (scriptedEnv ["Issue 9"] [] []) exampleFlags exampleJiraClient
            exampleGitlabClient 7 ([scriptedIssue 5] ++ scriptedIssue 9 :: [scriptedIssue 2])
            0).trace =
            (List.zipWith (successEvents exampleFlags 7) [scriptedIssue 5] keys).flatten ++
              [.createIssue (ticketRequest exampleFlags 7 (scriptedIssue 9)) (.ok key),
                .stdout (confirmation key (scriptedIssue 9)),
                .updateIssue exampleFlags.gitlabProject (scriptedIssue 9).IID
                  ["ticket created"] (.error e)]))) ∧
    (runLoop (scriptedEnv ["Issue 9"] [] []) exampleFlags exampleJiraClient
      exampleGitlabClient 7 [scriptedIssue 5, scriptedIssue 9, scriptedIssue 2] 0).trace =
      [.createIssue (ticketRequest exampleFlags 7 (scriptedIssue 5)) (.ok ⟨"SE-1"⟩),
        .stdout "Jira issue SE-1 is created from 5\n",
        .updateIssue "group/project" 5 ["ticket created"] (.ok ()),
        .createIssue (ticketRequest exampleFlags 7 (scriptedIssue 9))
          (.error "400 Bad Request")] :=
  ⟨C4_first_failure_stops_batch (scriptedEnv ["Issue 9"] [] []) exampleFlags exampleJiraClient
      exampleGitlabClient 7 [scriptedIssue 5] [scriptedIssue 2] (scriptedIssue 9) 0
      (by decide) (Or.inl ⟨"400 Bad Request", by decide⟩),
    by decide⟩


set_option maxRecDepth 100000 in
/-- C5: on a batch whose creations and label updates all succeed the run returns,
and its trace is, for each issue of the batch in order and for nothing else, the
creation of the issue's ticket request, the confirmation line and the update
adding the label "ticket created" to that issue; the creation requests
submitted are the ticket requests of the batch, in order. -/
theorem C5_synced_batch_trace {σ : Type} (env : Env σ) (flags : Flags)
    (jiraClient : JiraClient) (gitlabClient : GitlabClient) (accountID : Int)
    (batch : List GitlabIssue) (w : σ)
    (hok : ∀ ev ∈ (runLoop env flags jiraClient gitlabClient accountID batch w).trace,
      ev.succeeded = true) :
    (runLoop env flags jiraClient gitlabClient accountID batch w).result = .returned ∧
      ∃ keys : List JiraIssue, keys.length = batch.length ∧
        (runLoop env flags jiraClient gitlabClient accountID batch w).trace =
          (List.zipWith
            (fun gitlabIssue jiraIssue =>
              [Event.createIssue (ticketRequest flags accountID gitlabIssue) (.ok jiraIssue),
                Event.stdout (confirmation jiraIssue gitlabIssue),
                Event.updateIssue flags.gitlabProject gitlabIssue.IID ["ticket created"]
                  (.ok ())])
            batch keys).flatten ∧
        createRequests (runLoop env flags jiraClient gitlabClient accountID batch w).trace =
          batch.map (ticketRequest flags accountID) := by
  have hret := runLoop_succeeded env flags jiraClient gitlabClient accountID batch w hok
  obtain ⟨keys, hlen, htrace⟩ :=
    runLoop_returned env flags jiraClient gitlabClient accountID batch w hret
  refine ⟨hret, keys, hlen, htrace, ?_⟩
  rw [htrace]
  exact createRequests_successEvents flags accountID batch keys hlen

set_option maxRecDepth 100000 in
/-- C5 on the batch 5, 9, 2 with trackers that accept everything. -/
theorem C5_synced_batch_trace_witness :
    ((runLoop (scriptedEnv [] [] []) exampleFlags exampleJiraClient exampleGitlabClient 7
        [scriptedIssue 5, scriptedIssue 9, scriptedIssue 2] 0).result = .returned ∧
      ∃ keys : List JiraIssue,
        keys.length = [scriptedIssue 5, scriptedIssue 9, scriptedIssue 2].length ∧
        (runLoop (scriptedEnv [] [] []) exampleFlags exampleJiraClient exampleGitlabClient 7
          [scriptedIssue 5, scriptedIssue 9, scriptedIssue 2] 0).trace =
          (List.zipWith
            (fun gitlabIssue jiraIssue =>
              [Event.createIssue (ticketRequest exampleFlags 7 gitlabIssue) (.ok jiraIssue),
                Event.stdout (confirmation jiraIssue gitlabIssue),
                Event.updateIssue exampleFlags.gitlabProject gitlabIssue.IID
                  ["ticket created"] (.ok ())])
            [scriptedIssue 5, scriptedIssue 9, scriptedIssue 2] keys).flatten ∧
        createRequests
          (runLoop (scriptedEnv [] [] []) exampleFlags exampleJiraClient exampleGitlabClient 7
            [scriptedIssue 5, scriptedIssue 9, scriptedIssue 2] 0).trace =
          [scriptedIssue 5, scriptedIssue 9, scriptedIssue 2].map
            (ticketRequest exampleFlags 7)) ∧
    (runLoop (scriptedEnv [] [] []) exampleFlags exampleJiraClient exampleGitlabClient 7
      [scriptedIssue 5, scriptedIssue 9, scriptedIssue 2] 0).trace =
      [.createIssue (ticketRequest exampleFlags 7 (scriptedIssue 5)) (.ok ⟨"SE-1"⟩),
        .stdout "Jira issue SE-1 is created from 5\n",
        .updateIssue "group/project" 5 ["ticket created"] (.ok ()),
        .createIssue (ticketRequest exampleFlags 7 (scriptedIssue 9)) (.ok ⟨"SE-2"⟩),
        .stdout "Jira issue SE-2 is created from 9\n",
        .updateIssue "group/project" 9 ["ticket created"] (.ok ()),
        .createIssue (ticketRequest exampleFlags 7 (scriptedIssue 2)) (.ok ⟨"SE-3"⟩),
        .stdout "Jira issue SE-3 is created from 2\n",
        .updateIssue "group/project" 2 ["ticket created"] (.ok ())] :=
  ⟨C5_synced_batch_trace (scriptedEnv [] [] []) exampleFlags exampleJiraClient
      exampleGitlabClient 7 [scriptedIssue 5, scriptedIssue 9, scriptedIssue 2] 0 (by decide),
    by decide⟩

/-! ## The confirmation line -/

/-- The counts of lines, tickets and labels in the trace of the loop. -/
theorem runLoop_counts {σ : Type} (env : Env σ) (flags : Flags) (jiraClient : JiraClient)
    (gitlabClient : GitlabClient) (accountID : Int) (batch : List GitlabIssue) :
    ∀ w : σ,
      confirmationLines (runLoop env flags jiraClient gitlabClient accountID batch w).trace =
          createdTickets (runLoop env flags jiraClient gitlabClient accountID batch w).trace ∧
        labelledIssues (runLoop env flags jiraClient gitlabClient accountID batch w).trace ≤
          confirmationLines (runLoop env flags jiraClient gitlabClient accountID batch w).trace := by
  induction batch with
  | nil => intro w; exact ⟨rfl, le_refl _⟩
  | cons x batch ih =>
      intro w
      rcases hc : env.createIssue w jiraClient (ticketRequest flags accountID x) with ⟨r, w₁⟩
      cases r with
      | error e =>
          rw [runLoop_createError env flags jiraClient gitlabClient accountID x batch w w₁ e hc]
          simp [confirmationLines, createdTickets, labelledIssues]
      | ok key =>
          rcases hu : env.updateIssue w₁ gitlabClient flags.gitlabProject x.IID
            ["ticket created"] with ⟨u, w₂⟩
          cases u with
          | error e =>
              rw [runLoop_updateError env flags jiraClient gitlabClient accountID x batch w w₁
                w₂ key e hc hu]
              simp [confirmationLines, createdTickets, labelledIssues]
          | ok u =>
              rw [runLoop_ok env flags jiraClient gitlabClient accountID x batch w w₁ w₂ key u
                hc hu]
              obtain ⟨h₁, h₂⟩ := ih w₂
              simp only [confirmationLines, createdTickets, labelledIssues] at h₁ h₂ ⊢
              simp only [successEvents, List.cons_append, List.nil_append, List.countP_cons]
              simp only [if_true, if_false, Bool.false_eq_true]
              omega

/-- The trace of the loop is made of blocks, one for each issue reached: a failed
creation alone, or a creation, the confirmation line and the label update. -/
theorem runLoop_blocks {σ : Type} (env : Env σ) (flags : Flags) (jiraClient : JiraClient)
    (gitlabClient : GitlabClient) (accountID : Int) (batch : List GitlabIssue) :
    ∀ w : σ, ∃ blocks : List (List Event),
      (runLoop env flags jiraClient gitlabClient accountID batch w).trace = blocks.flatten ∧
      ∀ b ∈ blocks,
        (∃ fields e, b = [.createIssue fields (.error e)]) ∨
        (∃ fields key x result, x ∈ batch ∧
          b = [.createIssue fields (.ok key), .stdout (confirmation key x),
            .updateIssue flags.gitlabProject x.IID ["ticket created"] result]) := by
  induction batch with
  | nil => intro w; exact ⟨[], rfl, by simp⟩
  | cons x batch ih =>
      intro w
      rcases hc : env.createIssue w jiraClient (ticketRequest flags accountID x) with ⟨r, w₁⟩
      cases r with
      | error e =>
          rw [runLoop_createError env flags jiraClient gitlabClient accountID x batch w w₁ e hc]
          refine ⟨[[.createIssue (ticketRequest flags accountID x) (.error e)]], by simp, ?_⟩
          intro b hb
          rw [List.mem_singleton] at hb
          exact Or.inl ⟨_, _, hb⟩
      | ok key =>
          rcases hu : env.updateIssue w₁ gitlabClient flags.gitlabProject x.IID
            ["ticket created"] with ⟨u, w₂⟩
          cases u with
          | error e =>
              rw [runLoop_updateError env flags jiraClient gitlabClient accountID x batch w w₁
                w₂ key e hc hu]
              refine ⟨[[.createIssue (ticketRequest flags accountID x) (.ok key),
                .stdout (confirmation key x),
                .updateIssue flags.gitlabProject x.IID ["ticket created"] (.error e)]],
                by simp, ?_⟩
              intro b hb
              rw [List.mem_singleton] at hb
              exact Or.inr ⟨_, key, x, _, List.mem_cons_self _ _, hb⟩
          | ok u =>
              rw [runLoop_ok env flags jiraClient gitlabClient accountID x batch w w₁ w₂ key u
                hc hu]
              obtain ⟨blocks, htrace, hblocks⟩ := ih w₂
              refine ⟨successEvents flags accountID x key :: blocks, by simp [htrace], ?_⟩
              intro b hb
              rcases List.mem_cons.mp hb with hb | hb
              · exact Or.inr ⟨_, key, x, .ok (), List.mem_cons_self _ _, hb⟩
              · rcases hblocks b hb with h | ⟨fields, key₁, y, result, hy, hby⟩
                · exact Or.inl h
                · exact Or.inr ⟨fields, key₁, y, result, List.mem_cons_of_mem _ hy, hby⟩

set_option maxRecDepth 100000 in
/-- C7, as stated, fails: on the batch of issue 3, with the creation accepted and
the label update refused, one confirmation line is printed although no issue
had both its creation and its label update succeed; the line comes before the
failed label update. -/
theorem C7_counterexample :
    confirmationLines
        (runLoop (scriptedEnv [] [3] []) exampleFlags exampleJiraClient exampleGitlabClient 7
          [scriptedIssue 3] 0).trace = 1 ∧
      labelledIssues
        (runLoop (scriptedEnv [] [3] []) exampleFlags exampleJiraClient exampleGitlabClient 7
          [scriptedIssue 3] 0).trace = 0 ∧
      (runLoop (scriptedEnv [] [3] []) exampleFlags exampleJiraClient exampleGitlabClient 7
        [scriptedIssue 3] 0).trace =
        [.createIssue (ticketRequest exampleFlags 7 (scriptedIssue 3)) (.ok ⟨"SE-1"⟩),
          .stdout "Jira issue SE-1 is created from 3\n",
          .updateIssue "group/project" 3 ["ticket created"] (.error "403 Forbidden")] := by
  decide

/-- C7, amended: the confirmation line of an issue is printed right after the
issue's ticket creation has succeeded and before its label update is attempted,
whatever the result of that update; the number of lines printed is the number
of tickets created, and it is at least the number of issues labelled. -/
theorem C7_line_after_creation {σ : Type} (env : Env σ) (flags : Flags)
    (jiraClient : JiraClient) (gitlabClient : GitlabClient) (accountID : Int)
    (batch : List GitlabIssue) (w : σ) :
    confirmationLines (runLoop env flags jiraClient gitlabClient accountID batch w).trace =
        createdTickets (runLoop env flags jiraClient gitlabClient accountID batch w).trace ∧
      labelledIssues (runLoop env flags jiraClient gitlabClient accountID batch w).trace ≤
        confirmationLines (runLoop env flags jiraClient gitlabClient accountID batch w).trace ∧
      ∃ blocks : List (List Event),
        (runLoop env flags jiraClient gitlabClient accountID batch w).trace = blocks.flatten ∧
        ∀ b ∈ blocks,
          (∃ fields e, b = [.createIssue fields (.error e)]) ∨
          (∃ fields key x result, x ∈ batch ∧
            b = [.createIssue fields (.ok key), .stdout (confirmation key x),
              .updateIssue flags.gitlabProject x.IID ["ticket created"] result]) :=
  ⟨(runLoop_counts env flags jiraClient gitlabClient accountID batch w).1,
    (runLoop_counts env flags jiraClient gitlabClient accountID batch w).2,
    runLoop_blocks env flags jiraClient gitlabClient accountID batch w⟩


/-! ## `getGitlabIssues` -/

theorem Retrieved.length_eq {σ : Type} {env : Env σ} {client : GitlabClient}
    {projectID : String} {issueIDs : List Int} {issues : List GitlabIssue} {w w₁ : σ}
    (h : Retrieved env client projectID issueIDs w issues w₁) :
    issues.length = issueIDs.length := by
  induction h with
  | nil w => rfl
  | cons _ _ ih => simp [ih]

/-- The fetch loop on IDs whose retrievals all succeed. -/
theorem getGitlabIssuesFrom_retrieved {σ : Type} {env : Env σ} {client : GitlabClient}
    {projectID : String} {issueIDs : List Int} {got : List GitlabIssue} {w w₁ : σ}
    (h : Retrieved env client projectID issueIDs w got w₁) :
    ∀ issues : List GitlabIssue,
      getGitlabIssuesFrom env client projectID issueIDs issues w =
        ⟨.ok (issues ++ got), w₁,
          List.zipWith (fun issueID issue => Event.getIssue projectID issueID (.ok issue))
            issueIDs got⟩ := by
  induction h with
  | nil w => intro issues; simp [getGitlabIssuesFrom]
  | cons hget _ ih =>
      intro issues
      simp [getGitlabIssuesFrom, hget, ih]

/-- The fetch loop on IDs of which one fails after the retrievals before it
succeeded. -/
theorem getGitlabIssuesFrom_failed {σ : Type} {env : Env σ} {client : GitlabClient}
    {projectID : String} {pre : List Int} {got : List GitlabIssue} {w w₁ : σ}
    (h : Retrieved env client projectID pre w got w₁) :
    ∀ (issueID : Int) (post : List Int) (e : Err) (w₂ : σ) (issues : List GitlabIssue),
      env.getIssue w₁ client projectID issueID = (.error e, w₂) →
      getGitlabIssuesFrom env client projectID (pre ++ issueID :: post) issues w =
        ⟨.error e, w₂,
          List.zipWith (fun issueID issue => Event.getIssue projectID issueID (.ok issue))
            pre got ++ [.getIssue projectID issueID (.error e)]⟩ := by
  induction h with
  | nil w =>
      intro issueID post e w₂ issues hfail
      simp [getGitlabIssuesFrom, hfail]
  | cons hget _ ih =>
      intro issueID post e w₂ issues hfail
      simp [getGitlabIssuesFrom, hget, ih issueID post e w₂ _ hfail]

/-- From every world the retrievals either all succeed or reach a first one that
fails. -/
theorem retrieved_or_failed {σ : Type} (env : Env σ) (client : GitlabClient)
    (projectID : String) (issueIDs : List Int) :
    ∀ w : σ,
      (∃ (issues : List GitlabIssue) (w₁ : σ),
        Retrieved env client projectID issueIDs w issues w₁) ∨
      (∃ (pre : List Int) (issueID : Int) (post : List Int) (got : List GitlabIssue)
          (w₁ : σ) (e : Err) (w₂ : σ),
        issueIDs = pre ++ issueID :: post ∧ Retrieved env client projectID pre w got w₁ ∧
        env.getIssue w₁ client projectID issueID = (.error e, w₂)) := by
  induction issueIDs with
  | nil => intro w; exact Or.inl ⟨[], w, .nil w⟩
  | cons issueID rest ih =>
      intro w
      rcases hg : env.getIssue w client projectID issueID with ⟨r, w₁⟩
      cases r with
      | error e => exact Or.inr ⟨[], issueID, rest, [], w, e, w₁, rfl, .nil w, hg⟩
      | ok issue =>
          rcases ih w₁ with ⟨issues, w₂, h⟩ | ⟨pre, failed, post, got, w₂, e, w₃, hsplit, h, hf⟩
          · exact Or.inl ⟨issue :: issues, w₂, .cons hg h⟩
          · exact Or.inr ⟨issueID :: pre, failed, post, issue :: got, w₂, e, w₃,
              by simp [hsplit], .cons hg h, hf⟩

/-- C6: `getGitlabIssues` is all-or-nothing.  When the tracker answers every ID in
turn with an issue, the function returns these issues, as many as there are
IDs and in the order of the IDs, each retrieval being recorded with its issue.
When the tracker answers the IDs before some ID with issues and that ID with
an error, the function returns that error and no issue, and the retrievals
recorded stop at the failed one: no ID after it is retrieved.  One of the two
cases always holds. -/
theorem C6_getGitlabIssues_all_or_nothing {σ : Type} (env : Env σ) (w : σ)
    (client : GitlabClient) (projectID : String) (issueIDs : List Int) :
    (∀ (issues : List GitlabIssue) (w₁ : σ),
      Retrieved env client projectID issueIDs w issues w₁ →
        issues.length = issueIDs.length ∧
        getGitlabIssues env w client projectID issueIDs =
          ⟨.ok issues, w₁,
            List.zipWith (fun issueID issue => Event.getIssue projectID issueID (.ok issue))
              issueIDs issues⟩) ∧
    (∀ (pre : List Int) (issueID : Int) (post : List Int) (got : List GitlabIssue)
        (w₁ : σ) (e : Err) (w₂ : σ),
      issueIDs = pre ++ issueID :: post → Retrieved env client projectID pre w got w₁ →
      env.getIssue w₁ client projectID issueID = (.error e, w₂) →
        getGitlabIssues env w client projectID issueIDs =
          ⟨.error e, w₂,
            List.zipWith (fun issueID issue => Event.getIssue projectID issueID (.ok issue))
              pre got ++ [.getIssue projectID issueID (.error e)]⟩) ∧
    ((∃ (issues : List GitlabIssue) (w₁ : σ),
        Retrieved env client projectID issueIDs w issues w₁) ∨
      (∃ (pre : List Int) (issueID : Int) (post : List Int) (got : List GitlabIssue)
          (w₁ : σ) (e : Err) (w₂ : σ),
        issueIDs = pre ++ issueID :: post ∧ Retrieved env client projectID pre w got w₁ ∧
        env.getIssue w₁ client projectID issueID = (.error e, w₂))) := by
  refine ⟨?_, ?_, retrieved_or_failed env client projectID issueIDs w⟩
  · intro issues w₁ h
    refine ⟨h.length_eq, ?_⟩
    have := getGitlabIssuesFrom_retrieved h []
    simpa [getGitlabIssues] using this
  · intro pre issueID post got w₁ e w₂ hsplit h hfail
    subst hsplit
    exact getGitlabIssuesFrom_failed h issueID post e w₂ [] hfail

set_option maxRecDepth 100000 in
/-- C6 on the IDs 5, 9, 2: with every issue present the three issues are returned
in this order; with issue 9 missing the error of its retrieval is returned,
after the retrieval of 5 and without a retrieval of 2. -/
theorem C6_getGitlabIssues_all_or_nothing_witness :
    (getGitlabIssues (scriptedEnv [] [] []) 0 exampleGitlabClient "group/project" [5, 9, 2] =
        ⟨.ok [scriptedIssue 5, scriptedIssue 9, scriptedIssue 2], 0,
          [.getIssue "group/project" 5 (.ok (scriptedIssue 5)),
            .getIssue "group/project" 9 (.ok (scriptedIssue 9)),
            .getIssue "group/project" 2 (.ok (scriptedIssue 2))]⟩) ∧
      (getGitlabIssues (scriptedEnv [] [] [9]) 0 exampleGitlabClient "group/project" [5, 9, 2] =
        ⟨.error "404 Not Found", 0,
          [.getIssue "group/project" 5 (.ok (scriptedIssue 5)),
            .getIssue "group/project" 9 (.error "404 Not Found")]⟩) :=
  ⟨((C6_getGitlabIssues_all_or_nothing (scriptedEnv [] [] []) 0 exampleGitlabClient
      "group/project" [5, 9, 2]).1 [scriptedIssue 5, scriptedIssue 9, scriptedIssue 2] 0
      (.cons rfl (.cons rfl (.cons rfl (.nil 0))))).2,
    (C6_getGitlabIssues_all_or_nothing (scriptedEnv [] [] [9]) 0 exampleGitlabClient
      "group/project" [5, 9, 2]).2.1 [5] 9 [2] [scriptedIssue 5] 0 "404 Not Found" 0 rfl
      (.cons rfl (.nil 0)) rfl⟩

/-! ## The guards of `Run` -/

set_option maxRecDepth 100000 in
/-- C8 at a command line without `jira-account`: `init` marks no flag as required,
the run is not refused, the account is looked up under the empty key, and the
issue is fetched and synced. -/
theorem C8_absent_account_is_looked_up :
    init = [] ∧
      (Execute (scriptedEnv [] [] []) "1.0" "0123456789abcdef" absentAccountArgs exampleConfig
        0).result = .returned ∧
      (Execute (scriptedEnv [] [] []) "1.0" "0123456789abcdef" absentAccountArgs exampleConfig
        0).trace =
        [.jiraDo ⟨"GET", "/rest/tempo-accounts/1/account/key/"⟩ (.ok 7),
          .getIssue "group/project" 3 (.ok (scriptedIssue 3)),
          .createIssue (ticketRequest absentAccountArgs.flags 7 (scriptedIssue 3))
            (.ok ⟨"SE-1"⟩),
          .stdout "Jira issue SE-1 is created from 3\n",
          .updateIssue "group/project" 3 ["ticket created"] (.ok ())] := by
  decide

set_option maxRecDepth 100000 in
/-- C10 at a configuration with a token and an empty Jira URL: the run is not
aborted with "no Jira URLs were set in config"; the clients are built and the
account lookup is sent through the Jira client, whose transport fails.  With an
empty token the run is aborted with "no tokens were set in config" before any
call. -/
theorem C10_empty_jira_url_reaches_lookup :
    (Run (scriptedEnv [] [] []) "1.0" "0123456789abcdef" exampleFlags
        ⟨"token", "", "user", "secret"⟩ 0).result =
        .checkErr
          "Get \"/rest/tempo-accounts/1/account/key/ABC\": unsupported protocol scheme \"\"" ∧
      (Run (scriptedEnv [] [] []) "1.0" "0123456789abcdef" exampleFlags
        ⟨"token", "", "user", "secret"⟩ 0).trace =
        [.jiraDo ⟨"GET", "/rest/tempo-accounts/1/account/key/ABC"⟩
          (.error
            "Get \"/rest/tempo-accounts/1/account/key/ABC\": unsupported protocol scheme \"\"")] ∧
      (Run (scriptedEnv [] [] []) "1.0" "0123456789abcdef" exampleFlags
        ⟨"", "https://jira.example", "user", "secret"⟩ 0).result =
        .checkErr "no tokens were set in config" ∧
      (Run (scriptedEnv [] [] []) "1.0" "0123456789abcdef" exampleFlags
        ⟨"", "https://jira.example", "user", "secret"⟩ 0).trace = [] := by
  decide

end JiraSync
